import Mathlib

/-!
Verification of the consensus-configuration core of the XDPoSChain node.

The Lean definitions below are a shallow embedding of the Go sources:

* `params/config.go` — `ChainConfig`, `XDPoSConfig`, the fork-activation
  predicates (`isForked`, `IsHomestead`, ...), `BlockConsensusVersion`,
  and the configuration-compatibility checker (`checkCompatible`,
  `CheckCompatible`, `newCompatError`, `isForkIncompatible`,
  `configNumEqual`).
* `miner.go` — `Miner.SetExtra`.

Go `*big.Int` fields are embedded as `Option Int` (`none` = nil pointer);
a concrete big-int argument is `Int`.  Go `uint64` values that the code
only ever treats as non-negative machine words (`RewindTo`, the loop head)
are embedded as `Nat`.  Error values carry the same payload as the Go
structs, with string labels replaced by a closed enumeration.

Components of the repository whose implementation files are not part of
the provided sources (the certificate aggregator of the round engine, the
legacy leader rotation `getM1M2`, and the signer-list comparison
`compareSignersLists` — only their tests and callers are available) are
modelled from the specification; each such definition is marked
`Modelled from the spec:` in its doc comment.
-/

namespace XDC

/-- The two consensus engine versions, `ConsensusEngineVersion1` ("v1")
and `ConsensusEngineVersion2` ("v2") of `params/config.go`. -/
inductive ConsensusVersion where
  | v1 : ConsensusVersion
  | v2 : ConsensusVersion
deriving DecidableEq, Repr

/-- The `V2` sub-configuration of `XDPoSConfig` (params/config.go).
`SwitchBlock` is a `*big.Int`, hence `Option Int`. -/
structure V2Config where
  WaitPeriod : Int
  MinePeriod : Int
  SwitchBlock : Option Int
  TimeoutWorkerDuration : Int
  CertThreshold : Nat
deriving DecidableEq, Repr

/-- `XDPoSConfig` of params/config.go (the consensus-engine section of a
chain configuration).  The foundation wallet address is an abstract
identity. -/
structure XDPoSConfig where
  Period : Nat
  Epoch : Nat
  Reward : Nat
  RewardCheckpoint : Nat
  Gap : Nat
  FoudationWalletAddr : Nat
  WaitPeriod : Int
  SkipValidation : Bool
  V2 : Option V2Config
deriving DecidableEq, Repr

/-- `ChainConfig` of params/config.go: the per-chain set of fork
activation heights.  Each `*big.Int` activation field is `Option Int`
(`none` = nil = fork never activates). -/
structure ChainConfig where
  ChainId : Option Int
  HomesteadBlock : Option Int
  DAOForkBlock : Option Int
  DAOForkSupport : Bool
  EIP150Block : Option Int
  EIP155Block : Option Int
  EIP158Block : Option Int
  ByzantiumBlock : Option Int
  ConstantinopleBlock : Option Int
  XDPoS : Option XDPoSConfig
deriving DecidableEq, Repr

/-- `XDPoSConfig.BlockConsensusVersion` (params/config.go): V2 iff the V2
section and its switch block are configured and `num > SwitchBlock`. -/
def XDPoSConfig.BlockConsensusVersion (c : XDPoSConfig) (num : Int) : ConsensusVersion :=
  match c.V2 with
  | some v2 =>
    match v2.SwitchBlock with
    | some sb => if sb < num then ConsensusVersion.v2 else ConsensusVersion.v1
    | none => ConsensusVersion.v1
  | none => ConsensusVersion.v1

/-- `isForked` (params/config.go): a fork scheduled at `s` is active at
head `head` iff both are non-nil and `s ≤ head`. -/
def isForked (s head : Option Int) : Bool :=
  match s, head with
  | some sv, some hv => decide (sv ≤ hv)
  | _, _ => false

/-- `configNumEqual` (params/config.go): equality of two optional
big-ints, nil equal only to nil. -/
def configNumEqual (x y : Option Int) : Bool :=
  match x, y with
  | none, none => true
  | none, some _ => false
  | some _, none => false
  | some a, some b => decide (a = b)

/-- `isForkIncompatible` (params/config.go): the fork scheduled at `s1`
cannot be rescheduled to `s2` because `head` is already past one of
them. -/
def isForkIncompatible (s1 s2 head : Option Int) : Bool :=
  (isForked s1 head || isForked s2 head) && !configNumEqual s1 s2

/-- `ChainConfig.IsHomestead` (params/config.go). -/
def ChainConfig.IsHomestead (c : ChainConfig) (num : Option Int) : Bool :=
  isForked c.HomesteadBlock num

/-- `ChainConfig.IsDAOFork` (params/config.go). -/
def ChainConfig.IsDAOFork (c : ChainConfig) (num : Option Int) : Bool :=
  isForked c.DAOForkBlock num

/-- `ChainConfig.IsEIP150` (params/config.go). -/
def ChainConfig.IsEIP150 (c : ChainConfig) (num : Option Int) : Bool :=
  isForked c.EIP150Block num

/-- `ChainConfig.IsEIP155` (params/config.go). -/
def ChainConfig.IsEIP155 (c : ChainConfig) (num : Option Int) : Bool :=
  isForked c.EIP155Block num

/-- `ChainConfig.IsEIP158` (params/config.go). -/
def ChainConfig.IsEIP158 (c : ChainConfig) (num : Option Int) : Bool :=
  isForked c.EIP158Block num

/-- `ChainConfig.IsByzantium` (params/config.go). -/
def ChainConfig.IsByzantium (c : ChainConfig) (num : Option Int) : Bool :=
  isForked c.ByzantiumBlock num

/-- `ChainConfig.IsConstantinople` (params/config.go). -/
def ChainConfig.IsConstantinople (c : ChainConfig) (num : Option Int) : Bool :=
  isForked c.ConstantinopleBlock num

/-- The `What` labels of `ConfigCompatError`, one per `newCompatError`
call site in `checkCompatible` (params/config.go). -/
inductive CompatWhat where
  | HomesteadFork : CompatWhat
  | DAOFork : CompatWhat
  | DAOForkSupportFlag : CompatWhat
  | EIP150Fork : CompatWhat
  | EIP155Fork : CompatWhat
  | EIP158Fork : CompatWhat
  | EIP158ChainId : CompatWhat
  | ByzantiumFork : CompatWhat
  | ConstantinopleFork : CompatWhat
deriving DecidableEq, Repr

/-- `ConfigCompatError` (params/config.go): the incompatibility report,
carrying the two conflicting activation heights and the rewind target
(`uint64`, hence `Nat`). -/
structure ConfigCompatError where
  What : CompatWhat
  StoredConfig : Option Int
  NewConfig : Option Int
  RewindTo : Nat
deriving DecidableEq, Repr

/-- `newCompatError` (params/config.go): picks the lower of the two
present conflicting heights as the rewind base; `RewindTo` is that height
minus one when it is positive, and stays zero otherwise. -/
def newCompatError (what : CompatWhat) (storedblock newblock : Option Int) :
    ConfigCompatError :=
  let rew : Option Int :=
    match storedblock, newblock with
    | none, _ => newblock
    | some _, none => storedblock
    | some a, some b => if a < b then storedblock else newblock
  { What := what
    StoredConfig := storedblock
    NewConfig := newblock
    RewindTo :=
      match rew with
      | some r => if 0 < r then (r - 1).toNat else 0
      | none => 0 }

/-- `ChainConfig.checkCompatible` (params/config.go): the single-pass
check walking the ordered fork fields, returning the first
incompatibility found. -/
def ChainConfig.checkCompatible (c newcfg : ChainConfig) (head : Option Int) :
    Option ConfigCompatError :=
  if isForkIncompatible c.HomesteadBlock newcfg.HomesteadBlock head then
    some (newCompatError CompatWhat.HomesteadFork c.HomesteadBlock newcfg.HomesteadBlock)
  else if isForkIncompatible c.DAOForkBlock newcfg.DAOForkBlock head then
    some (newCompatError CompatWhat.DAOFork c.DAOForkBlock newcfg.DAOForkBlock)
  else if c.IsDAOFork head && !(c.DAOForkSupport == newcfg.DAOForkSupport) then
    some (newCompatError CompatWhat.DAOForkSupportFlag c.DAOForkBlock newcfg.DAOForkBlock)
  else if isForkIncompatible c.EIP150Block newcfg.EIP150Block head then
    some (newCompatError CompatWhat.EIP150Fork c.EIP150Block newcfg.EIP150Block)
  else if isForkIncompatible c.EIP155Block newcfg.EIP155Block head then
    some (newCompatError CompatWhat.EIP155Fork c.EIP155Block newcfg.EIP155Block)
  else if isForkIncompatible c.EIP158Block newcfg.EIP158Block head then
    some (newCompatError CompatWhat.EIP158Fork c.EIP158Block newcfg.EIP158Block)
  else if c.IsEIP158 head && !configNumEqual c.ChainId newcfg.ChainId then
    some (newCompatError CompatWhat.EIP158ChainId c.EIP158Block newcfg.EIP158Block)
  else if isForkIncompatible c.ByzantiumBlock newcfg.ByzantiumBlock head then
    some (newCompatError CompatWhat.ByzantiumFork c.ByzantiumBlock newcfg.ByzantiumBlock)
  else if isForkIncompatible c.ConstantinopleBlock newcfg.ConstantinopleBlock head then
    some (newCompatError CompatWhat.ConstantinopleFork c.ConstantinopleBlock newcfg.ConstantinopleBlock)
  else
    none

/-- The iteration inside `ChainConfig.CheckCompatible` (params/config.go),
made explicit with a fuel argument: re-run the single-pass check at the
computed rewind height until no conflict remains or the rewind height
stops changing, and return the last conflict found.  The Go loop has no
fuel; `checkCompatibleLoop_stable` below shows the fuel supplied by
`CheckCompatible` is always enough, which is the termination argument for
the Go loop. -/
def checkCompatibleLoop (c newcfg : ChainConfig) :
    Nat → Nat → Option ConfigCompatError → Option ConfigCompatError
  | 0, _, lasterr => lasterr
  | fuel + 1, bhead, lasterr =>
    match c.checkCompatible newcfg (some (bhead : Int)) with
    | none => lasterr
    | some err =>
      match lasterr with
      | some le =>
        if err.RewindTo = le.RewindTo then lasterr
        else checkCompatibleLoop c newcfg fuel err.RewindTo (some err)
      | none => checkCompatibleLoop c newcfg fuel err.RewindTo (some err)

/-- `ChainConfig.CheckCompatible` (params/config.go): iterate the
single-pass check to find the lowest conflict.  `height + 2` fuel covers
every possible iteration count (proved in `checkCompatibleLoop_stable`). -/
def ChainConfig.CheckCompatible (c newcfg : ChainConfig) (height : Nat) :
    Option ConfigCompatError :=
  checkCompatibleLoop c newcfg (height + 2) height none

/-! ## Miner.SetExtra (miner.go) -/

/-- The slice of worker state relevant to `Miner.SetExtra`: the worker's
extra-data bytes (bytes are abstract `Nat`s). -/
structure WorkerState where
  extra : List Nat
deriving DecidableEq, Repr

/-- Modelled from the spec: `worker.setExtra`, whose defining file is not
among the provided sources; per the miner's contract it stores the new
extra-data bytes on the worker. -/
def WorkerState.setExtra (w : WorkerState) (e : List Nat) : WorkerState :=
  { w with extra := e }

/-- The payload of the error returned by `Miner.SetExtra` (miner.go):
the offending length and the maximum, as in the formatted message. -/
structure ExtraSizeError where
  got : Nat
  max : Nat
deriving DecidableEq, Repr

/-- `Miner.SetExtra` (miner.go): reject extra data longer than
`params.MaximumExtraDataSize` — a constant defined outside the provided
sources, so it is a parameter here — otherwise hand the bytes to the
worker.  The result pairs the returned error with the worker state after
the call. -/
def Miner.SetExtra (maximumExtraDataSize : Nat) (w : WorkerState) (extra : List Nat) :
    Option ExtraSizeError × WorkerState :=
  if maximumExtraDataSize < extra.length then
    (some { got := extra.length, max := maximumExtraDataSize }, w)
  else
    (none, w.setExtra extra)

/-! ## Signer-list comparison (XDPoS engine) -/

/-- Modelled from the spec: `compareSignersLists` of the XDPoS engine —
its implementation file is not among the provided sources, only its test
is.  §4.2: true iff the two lists contain the same identities
irrespective of order (order-independent multiset equality over unique
elements).  Identities are abstract `Nat`s. -/
def compareSignersLists (list1 list2 : List Nat) : Bool :=
  decide (Multiset.ofList list1 = Multiset.ofList list2)

/-! ## Legacy leader rotation (XDPoS engine) -/

/-- Modelled from the spec: the protocol constant `swapInterval` of the
legacy leader rotation (§4.3, §9) — the fixed window size after which the
backup assignment rotates — inferred from the §8 test trace (windows of
three blocks for the three-node committee). -/
def swapInterval : Nat := 3

/-- Modelled from the spec: the rotation index (`moveM2`) returned by
`getM1M2` of the XDPoS engine — its implementation file is not among the
provided sources, only its test is.  §4.3:
`rotationIndex = floor(blockNumber / swapInterval) mod |masternodes|`. -/
def getM1M2RotationIndex (masternodes : List Nat) (blockNumber : Nat) : Nat :=
  (blockNumber / swapInterval) % masternodes.length

/-! ## Certificate aggregator (round engine) -/

/-- Modelled from the spec: the per-key state of the CertificateAggregator
(§4.5) — the round-engine sources are not among the provided files.  The
aggregator is internally keyed by (round, topic); each key owns one
independent `AggState`: the recorded (signer, signature) pairs and the
sealed flag set at certificate formation.  Signers and signatures are
abstract `Nat`s. -/
structure AggState where
  sigs : List (Nat × Nat)
  formed : Bool
deriving DecidableEq, Repr

/-- The signature recorded for a signer under this key, if any. -/
def AggState.lookupSigner (st : AggState) (signer : Nat) : Option Nat :=
  (st.sigs.find? (fun p => p.1 == signer)).map Prod.snd

/-- Modelled from the spec: `add` of the CertificateAggregator (§4.5) for
one (round, topic) key.  Re-adding a known signer is a no-op on the
aggregate (an equal signature is idempotent; a different one is
equivocation evidence, reported to the caller and not aggregated).  A new
signer is recorded; the returned flag — `certificateFormed` — is true
exactly when the distinct-signer count first reaches `certThreshold`;
once formed the key is sealed: later additions are kept for audit but
never re-trigger formation. -/
def AggState.add (certThreshold : Nat) (st : AggState) (signer sig : Nat) :
    AggState × Bool :=
  match st.lookupSigner signer with
  | some _ => (st, false)
  | none =>
    let sigs' := (signer, sig) :: st.sigs
    if st.formed then ({ sigs := sigs', formed := true }, false)
    else if certThreshold ≤ sigs'.length then ({ sigs := sigs', formed := true }, true)
    else ({ sigs := sigs', formed := false }, false)

/-- The empty aggregator state of a fresh (round, topic) key. -/
def AggState.init : AggState :=
  { sigs := [], formed := false }

/-- Feed a sequence of accepted votes (signer, signature) for one
(round, topic) key into the aggregator. -/
def runAgg (certThreshold : Nat) (st : AggState) : List (Nat × Nat) → AggState
  | [] => st
  | v :: vs => runAgg certThreshold (AggState.add certThreshold st v.1 v.2).1 vs

/-- The set of distinct signers occurring in a vote sequence. -/
def distinctSigners (votes : List (Nat × Nat)) : Finset Nat :=
  (votes.map Prod.fst).toFinset

/-! ## Concrete configurations used by witnesses and counterexamples -/

/-- A chain configuration with no forks scheduled (baseline for the
concrete scenarios). -/
def cfgBase : ChainConfig :=
  { ChainId := some 1, HomesteadBlock := none, DAOForkBlock := none,
    DAOForkSupport := false, EIP150Block := none, EIP155Block := none,
    EIP158Block := none, ByzantiumBlock := none, ConstantinopleBlock := none,
    XDPoS := none }

/-- Stored configuration of the §8 scenario: EIP150 at block 100. -/
def cfgEIP150At100 : ChainConfig := { cfgBase with EIP150Block := some 100 }

/-- Incoming configuration of the §8 scenario: EIP150 at block 200. -/
def cfgEIP150At200 : ChainConfig := { cfgBase with EIP150Block := some 200 }

/-- Stored configuration with EIP150 active from genesis (block 0). -/
def cfgEIP150At0 : ChainConfig := { cfgBase with EIP150Block := some 0 }

/-- Incoming configuration with EIP150 rescheduled to block 5. -/
def cfgEIP150At5 : ChainConfig := { cfgBase with EIP150Block := some 5 }

/-- The `TestXDPoSV2Config` of params/config.go: switch block 900,
certificate threshold 3. -/
def TestXDPoSV2Config : V2Config :=
  { WaitPeriod := 1, MinePeriod := 2, SwitchBlock := some 900,
    TimeoutWorkerDuration := 10, CertThreshold := 3 }

/-- The XDPoS section of `TestXDPoSMockChainConfig` (params/config.go):
epoch 900, gap 450, V2 engine switching at block 900. -/
def TestXDPoSMockConfig : XDPoSConfig :=
  { Period := 0, Epoch := 900, Reward := 0, RewardCheckpoint := 0, Gap := 450,
    FoudationWalletAddr := 0, WaitPeriod := 0, SkipValidation := true,
    V2 := some TestXDPoSV2Config }

/-- The three masternode identities A, B, C of the §8 rotation
scenario. -/
def masternodesABC : List Nat := [10, 11, 12]

/-- The invariant maintained by the certificate aggregator for one key:
signers are recorded at most once, and the sealed flag is set exactly
when the distinct-signer count has reached the threshold. -/
def AggInv (t : Nat) (st : AggState) : Prop :=
  (st.sigs.map Prod.fst).Nodup ∧ st.formed = decide (t ≤ st.sigs.length)

/-- The lower of two optional activation heights (the present one when
only one is present; zero when both are absent). -/
def lowerHeight (s1 s2 : Option Int) : Int :=
  match s1, s2 with
  | none, none => 0
  | none, some b => b
  | some a, none => a
  | some a, some b => min a b

/-! ## Fork-activation predicates: helper lemmas -/

theorem isForked_some_iff (s : Option Int) (n : Int) :
    isForked s (some n) = true ↔ ∃ a, s = some a ∧ a ≤ n := by
  cases s <;> simp [isForked]

theorem isForked_nil_head (s : Option Int) : isForked s none = false := by
  cases s <;> rfl

theorem isForked_nil_sched (m : Option Int) : isForked none m = false := by
  cases m <;> rfl

/-- C4: `BlockConsensusVersion(c, n)` returns V2 iff the V2 section and
its switch block are configured and `n > switchBlock`; in every other
case it returns V1. -/
theorem blockConsensusVersion_spec (c : XDPoSConfig) (n : Int) :
    (c.BlockConsensusVersion n = ConsensusVersion.v2 ↔
      ∃ v2 sb, c.V2 = some v2 ∧ v2.SwitchBlock = some sb ∧ sb < n) ∧
    (c.BlockConsensusVersion n = ConsensusVersion.v1 ↔
      ¬ ∃ v2 sb, c.V2 = some v2 ∧ v2.SwitchBlock = some sb ∧ sb < n) := by
  unfold XDPoSConfig.BlockConsensusVersion
  rcases hv : c.V2 with _ | v2 <;> simp only [hv]
  · simp
  · rcases hsb : v2.SwitchBlock with _ | sb <;> simp only [hsb]
    · simp [hsb]
    · by_cases h : sb < n <;> simp [h, hsb]

/-- Witness for C4: the test configuration switches at block 900 — block
901 is consensus V2 while block 900 itself is still V1. -/
theorem blockConsensusVersion_spec_witness :
    TestXDPoSMockConfig.BlockConsensusVersion 901 = ConsensusVersion.v2 ∧
    TestXDPoSMockConfig.BlockConsensusVersion 900 = ConsensusVersion.v1 :=
  ⟨(blockConsensusVersion_spec TestXDPoSMockConfig 901).1.mpr
     ⟨TestXDPoSV2Config, 900, rfl, rfl, by decide⟩,
   (blockConsensusVersion_spec TestXDPoSMockConfig 900).2.mpr (by
     rintro ⟨v2, sb, hv, hsb, hlt⟩
     simp [TestXDPoSMockConfig] at hv
     subst hv
     simp [TestXDPoSV2Config] at hsb
     omega)⟩

/-- C5: `BlockConsensusVersion` is monotonic in the block number — once
it returns V2 at `h1`, it returns V2 at every `h2 > h1`. -/
theorem blockConsensusVersion_mono (c : XDPoSConfig) (h1 h2 : Int)
    (hlt : h1 < h2) (hv : c.BlockConsensusVersion h1 = ConsensusVersion.v2) :
    c.BlockConsensusVersion h2 = ConsensusVersion.v2 := by
  unfold XDPoSConfig.BlockConsensusVersion at hv ⊢
  rcases hcfg : c.V2 with _ | v2 <;> simp only [hcfg] at hv ⊢
  · simp at hv
  · rcases hsb : v2.SwitchBlock with _ | sb <;> simp only [hsb] at hv ⊢
    · simp at hv
    · by_cases h : sb < h1
      · simp [show sb < h2 by omega]
      · simp [h] at hv

/-- Witness for C5: the test V2 configuration switches at block 900;
V2 at height 901 propagates to height 902. -/
theorem blockConsensusVersion_mono_witness :
    TestXDPoSMockConfig.BlockConsensusVersion 902 = ConsensusVersion.v2 :=
  blockConsensusVersion_mono TestXDPoSMockConfig 901 902 (by decide) (by decide)

/-- C6: each fork-activation predicate of `ChainConfig` holds at a
non-nil block number `n` iff the corresponding activation field is
non-nil and at most `n`; a nil field makes the predicate false
everywhere; a zero field makes it true from genesis onward. -/
theorem fork_predicates_spec (c : ChainConfig) (n : Int) :
    ((c.IsHomestead (some n) = true ↔ ∃ a, c.HomesteadBlock = some a ∧ a ≤ n) ∧
     (c.IsDAOFork (some n) = true ↔ ∃ a, c.DAOForkBlock = some a ∧ a ≤ n) ∧
     (c.IsEIP150 (some n) = true ↔ ∃ a, c.EIP150Block = some a ∧ a ≤ n) ∧
     (c.IsEIP155 (some n) = true ↔ ∃ a, c.EIP155Block = some a ∧ a ≤ n) ∧
     (c.IsEIP158 (some n) = true ↔ ∃ a, c.EIP158Block = some a ∧ a ≤ n) ∧
     (c.IsByzantium (some n) = true ↔ ∃ a, c.ByzantiumBlock = some a ∧ a ≤ n) ∧
     (c.IsConstantinople (some n) = true ↔ ∃ a, c.ConstantinopleBlock = some a ∧ a ≤ n)) ∧
    ((c.HomesteadBlock = none → ∀ m, c.IsHomestead m = false) ∧
     (c.DAOForkBlock = none → ∀ m, c.IsDAOFork m = false) ∧
     (c.EIP150Block = none → ∀ m, c.IsEIP150 m = false) ∧
     (c.EIP155Block = none → ∀ m, c.IsEIP155 m = false) ∧
     (c.EIP158Block = none → ∀ m, c.IsEIP158 m = false) ∧
     (c.ByzantiumBlock = none → ∀ m, c.IsByzantium m = false) ∧
     (c.ConstantinopleBlock = none → ∀ m, c.IsConstantinople m = false)) ∧
    ((c.HomesteadBlock = some 0 → ∀ k : Nat, c.IsHomestead (some (k : Int)) = true) ∧
     (c.DAOForkBlock = some 0 → ∀ k : Nat, c.IsDAOFork (some (k : Int)) = true) ∧
     (c.EIP150Block = some 0 → ∀ k : Nat, c.IsEIP150 (some (k : Int)) = true) ∧
     (c.EIP155Block = some 0 → ∀ k : Nat, c.IsEIP155 (some (k : Int)) = true) ∧
     (c.EIP158Block = some 0 → ∀ k : Nat, c.IsEIP158 (some (k : Int)) = true) ∧
     (c.ByzantiumBlock = some 0 → ∀ k : Nat, c.IsByzantium (some (k : Int)) = true) ∧
     (c.ConstantinopleBlock = some 0 → ∀ k : Nat, c.IsConstantinople (some (k : Int)) = true)) := by
  refine ⟨⟨?_, ?_, ?_, ?_, ?_, ?_, ?_⟩, ⟨?_, ?_, ?_, ?_, ?_, ?_, ?_⟩,
          ⟨?_, ?_, ?_, ?_, ?_, ?_, ?_⟩⟩ <;>
    first
      | exact isForked_some_iff _ _
      | (intro h m
         simp only [ChainConfig.IsHomestead, ChainConfig.IsDAOFork,
           ChainConfig.IsEIP150, ChainConfig.IsEIP155, ChainConfig.IsEIP158,
           ChainConfig.IsByzantium, ChainConfig.IsConstantinople, h]
         exact isForked_nil_sched m)
      | (intro h k
         simp only [ChainConfig.IsHomestead, ChainConfig.IsDAOFork,
           ChainConfig.IsEIP150, ChainConfig.IsEIP155, ChainConfig.IsEIP158,
           ChainConfig.IsByzantium, ChainConfig.IsConstantinople, h, isForked]
         simp)

/-- Witness for C6: on the genesis-activated EIP150 configuration, a nil
homestead field is never active while EIP150 is active at block 7. -/
theorem fork_predicates_spec_witness :
    cfgEIP150At0.IsHomestead (some 5) = false ∧
    cfgEIP150At0.IsEIP150 (some ((7 : Nat) : Int)) = true :=
  ⟨(fork_predicates_spec cfgEIP150At0 0).2.1.1 rfl (some 5),
   (fork_predicates_spec cfgEIP150At0 0).2.2.2.2.1 rfl 7⟩

/-- C10: every public fork predicate of `ChainConfig` is total on a nil
block-number argument and returns false there, for every configuration. -/
theorem fork_predicates_nil_head (c : ChainConfig) :
    c.IsHomestead none = false ∧ c.IsDAOFork none = false ∧
    c.IsEIP150 none = false ∧ c.IsEIP155 none = false ∧
    c.IsEIP158 none = false ∧ c.IsByzantium none = false ∧
    c.IsConstantinople none = false :=
  ⟨isForked_nil_head _, isForked_nil_head _, isForked_nil_head _,
   isForked_nil_head _, isForked_nil_head _, isForked_nil_head _,
   isForked_nil_head _⟩

/-- C9: `Miner.SetExtra(extra)` returns an error iff the extra data is
longer than the maximum extra-data size; when it errors the worker's
extra-data field is left unchanged, and when it succeeds it returns nil
and the worker's extra-data is set to `extra`. -/
theorem setExtra_spec (maxSize : Nat) (w : WorkerState) (extra : List Nat) :
    ((Miner.SetExtra maxSize w extra).1 ≠ none ↔ maxSize < extra.length) ∧
    (maxSize < extra.length →
      Miner.SetExtra maxSize w extra = (some ⟨extra.length, maxSize⟩, w)) ∧
    (extra.length ≤ maxSize →
      Miner.SetExtra maxSize w extra = (none, { w with extra := extra })) := by
  refine ⟨?_, ?_, ?_⟩
  · unfold Miner.SetExtra
    by_cases h : maxSize < extra.length <;> simp [h]
  · intro h
    unfold Miner.SetExtra
    simp [h]
  · intro h
    unfold Miner.SetExtra
    simp [Nat.not_lt.mpr h, WorkerState.setExtra]

/-- Witness for C9: with maximum 2, a 3-byte extra errors and leaves the
worker untouched, while a 1-byte extra succeeds and is stored. -/
theorem setExtra_spec_witness :
    Miner.SetExtra 2 ⟨[]⟩ [1, 2, 3] = (some ⟨3, 2⟩, ⟨[]⟩) ∧
    Miner.SetExtra 2 ⟨[9]⟩ [1] = (none, ⟨[1]⟩) :=
  ⟨(setExtra_spec 2 ⟨[]⟩ [1, 2, 3]).2.1 (by decide),
   (setExtra_spec 2 ⟨[9]⟩ [1]).2.2 (by decide)⟩

/-- C7: `compareSignersLists` is reflexive, symmetric and
order-independent; it is false when the lengths differ or some identity
is in one list and not the other; empty and singleton lists behave
correctly. -/
theorem compareSignersLists_spec :
    (∀ a : List Nat, compareSignersLists a a = true) ∧
    (∀ a b : List Nat, compareSignersLists a b = compareSignersLists b a) ∧
    (∀ a b : List Nat, a.Perm b → compareSignersLists a b = true) ∧
    (∀ a b : List Nat, a.length ≠ b.length → compareSignersLists a b = false) ∧
    (∀ (a b : List Nat) (x : Nat), x ∈ a → x ∉ b → compareSignersLists a b = false) ∧
    compareSignersLists [] [] = true ∧
    (∀ x : Nat, compareSignersLists [x] [x] = true) ∧
    (∀ x y : Nat, x ≠ y → compareSignersLists [x] [y] = false) := by
  refine ⟨?_, ?_, ?_, ?_, ?_, ?_, ?_, ?_⟩
  · intro a
    simp [compareSignersLists]
  · intro a b
    exact decide_eq_decide.mpr eq_comm
  · intro a b hp
    rw [compareSignersLists, decide_eq_true_eq]
    exact Quot.sound hp
  · intro a b h
    rw [compareSignersLists, decide_eq_false_iff_not]
    intro he
    exact h (by simpa using congrArg Multiset.card he)
  · intro a b x hxa hxb
    rw [compareSignersLists, decide_eq_false_iff_not]
    intro he
    have hx : x ∈ Multiset.ofList b := he ▸ (by simpa using hxa)
    exact hxb (by simpa using hx)
  · decide
  · intro x
    simp [compareSignersLists]
  · intro x y hxy
    rw [compareSignersLists, decide_eq_false_iff_not]
    simpa using hxy

/-- Witness for C7: concrete instances of the order-independence and
size/identity-difference cases, matching the repository's own test lists. -/
theorem compareSignersLists_spec_witness :
    compareSignersLists [1, 2, 3, 4] [3, 1, 4, 2] = true ∧
    compareSignersLists [1, 2, 3] [1, 2] = false ∧
    compareSignersLists [5] [7] = false :=
  ⟨compareSignersLists_spec.2.2.1 [1, 2, 3, 4] [3, 1, 4, 2] (by decide),
   compareSignersLists_spec.2.2.2.1 [1, 2, 3] [1, 2] (by decide),
   compareSignersLists_spec.2.2.2.2.2.2.2 5 7 (by decide)⟩

/-- C8: for the three-node committee the rotation index over blocks
3464001..3464009 is [0,0,0,1,1,1,2,2,2] and the same sequence repeats
over 3464010..3464018; in general the index is
floor(blockNumber / swapInterval) mod |masternodes|. -/
theorem rotationIndex_trace :
    ((List.range 9).map (fun i => getM1M2RotationIndex masternodesABC (3464001 + i)) =
      [0, 0, 0, 1, 1, 1, 2, 2, 2]) ∧
    ((List.range 9).map (fun i => getM1M2RotationIndex masternodesABC (3464010 + i)) =
      [0, 0, 0, 1, 1, 1, 2, 2, 2]) ∧
    (∀ (masternodes : List Nat) (blockNumber : Nat),
      getM1M2RotationIndex masternodes blockNumber =
        (blockNumber / swapInterval) % masternodes.length) :=
  ⟨by decide, by decide, fun _ _ => rfl⟩

/-! ## Certificate aggregator lemmas -/

theorem lookupSigner_eq_none (st : AggState) (s : Nat) :
    st.lookupSigner s = none ↔ s ∉ st.sigs.map Prod.fst := by
  unfold AggState.lookupSigner
  rw [Option.map_eq_none', List.find?_eq_none]
  constructor
  · intro h hmem
    obtain ⟨p, hp, hfst⟩ := List.mem_map.mp hmem
    have := h p hp
    simp [hfst] at this
  · intro h p hp
    simp only [beq_iff_eq]
    intro hps
    exact h (List.mem_map.mpr ⟨p, hp, hps⟩)

theorem mem_of_lookupSigner_some {st : AggState} {s : Nat} {v : Nat}
    (h : st.lookupSigner s = some v) : s ∈ st.sigs.map Prod.fst := by
  by_contra hns
  rw [← lookupSigner_eq_none] at hns
  rw [hns] at h
  exact Option.noConfusion h

theorem add_known {t : Nat} {st : AggState} {s g v : Nat}
    (hl : st.lookupSigner s = some v) : AggState.add t st s g = (st, false) := by
  unfold AggState.add
  rw [hl]

theorem add_new {t : Nat} {st : AggState} {s g : Nat}
    (hl : st.lookupSigner s = none) :
    (AggState.add t st s g).1.sigs = (s, g) :: st.sigs ∧
    (AggState.add t st s g).1.formed =
      (st.formed || decide (t ≤ st.sigs.length + 1)) ∧
    (AggState.add t st s g).2 =
      (!st.formed && decide (t ≤ st.sigs.length + 1)) := by
  unfold AggState.add
  rw [hl]
  by_cases h1 : st.formed <;> by_cases h2 : t ≤ st.sigs.length + 1 <;>
    simp [h1, h2]

theorem add_keys (t : Nat) (st : AggState) (s g : Nat) :
    ((AggState.add t st s g).1.sigs.map Prod.fst).toFinset =
      insert s (st.sigs.map Prod.fst).toFinset := by
  cases hl : st.lookupSigner s with
  | some v =>
    rw [add_known hl]
    have hs : s ∈ (st.sigs.map Prod.fst).toFinset :=
      List.mem_toFinset.mpr (mem_of_lookupSigner_some hl)
    exact (Finset.insert_eq_self.mpr hs).symm
  | none =>
    rw [(add_new hl).1, List.map_cons, List.toFinset_cons]

theorem add_inv {t : Nat} {st : AggState} (s g : Nat) (h : AggInv t st) :
    AggInv t (AggState.add t st s g).1 := by
  obtain ⟨hnd, hf⟩ := h
  cases hl : st.lookupSigner s with
  | some v =>
    rw [add_known hl]
    exact ⟨hnd, hf⟩
  | none =>
    obtain ⟨hsg, hfm, -⟩ := add_new (t := t) (g := g) hl
    have hns : s ∉ st.sigs.map Prod.fst := (lookupSigner_eq_none st s).mp hl
    refine ⟨?_, ?_⟩
    · rw [hsg, List.map_cons]
      exact List.nodup_cons.mpr ⟨hns, hnd⟩
    · rw [hfm, hsg, hf, List.length_cons]
      by_cases h1 : t ≤ st.sigs.length <;> by_cases h2 : t ≤ st.sigs.length + 1 <;>
        simp [h1, h2] <;> omega

theorem runAgg_inv {t : Nat} (vs : List (Nat × Nat)) {st : AggState}
    (h : AggInv t st) : AggInv t (runAgg t st vs) := by
  induction vs generalizing st with
  | nil => exact h
  | cons v vs ih => exact ih (add_inv v.1 v.2 h)

theorem runAgg_keys (t : Nat) (vs : List (Nat × Nat)) (st : AggState) :
    ((runAgg t st vs).sigs.map Prod.fst).toFinset =
      (st.sigs.map Prod.fst).toFinset ∪ distinctSigners vs := by
  induction vs generalizing st with
  | nil => simp [runAgg, distinctSigners]
  | cons v vs ih =>
    rw [runAgg, ih, add_keys]
    simp [distinctSigners, Finset.insert_union, Finset.union_insert]

theorem init_inv {t : Nat} (ht : 1 ≤ t) : AggInv t AggState.init := by
  have h0 : ¬ t ≤ 0 := by omega
  exact ⟨List.nodup_nil, by simp [AggState.init, h0]⟩

theorem runAgg_init_keys (t : Nat) (vs : List (Nat × Nat)) :
    ((runAgg t AggState.init vs).sigs.map Prod.fst).toFinset = distinctSigners vs := by
  rw [runAgg_keys]
  simp [AggState.init]

theorem runAgg_init_length {t : Nat} (ht : 1 ≤ t) (vs : List (Nat × Nat)) :
    (runAgg t AggState.init vs).sigs.length = (distinctSigners vs).card := by
  have hinv := runAgg_inv (t := t) vs (init_inv ht)
  rw [← runAgg_init_keys t vs, List.toFinset_card_of_nodup hinv.1, List.length_map]

/-- C1: for each aggregator key and every sequence of accepted votes, a
certificate forms exactly when the count of distinct signers first
reaches `certThreshold`: `certThreshold - 1` distinct signers never form
one, re-adding an already-counted signer changes nothing and never
triggers formation, and additions after formation never re-trigger it. -/
theorem certificateAggregator_spec (t : Nat) (ht : 1 ≤ t) :
    (∀ vs : List (Nat × Nat),
      ((runAgg t AggState.init vs).formed = true ↔ t ≤ (distinctSigners vs).card)) ∧
    (∀ vs : List (Nat × Nat), (distinctSigners vs).card = t - 1 →
      (runAgg t AggState.init vs).formed = false) ∧
    (∀ (st : AggState) (s g : Nat), st.lookupSigner s ≠ none →
      AggState.add t st s g = (st, false)) ∧
    (∀ (st : AggState) (s g : Nat), st.formed = true →
      (AggState.add t st s g).2 = false) ∧
    (∀ (vs : List (Nat × Nat)) (s g : Nat),
      ((AggState.add t (runAgg t AggState.init vs) s g).2 = true ↔
        ((distinctSigners vs).card < t ∧
         t ≤ (distinctSigners (vs ++ [(s, g)])).card))) := by
  have hformed : ∀ vs : List (Nat × Nat),
      ((runAgg t AggState.init vs).formed = true ↔ t ≤ (distinctSigners vs).card) := by
    intro vs
    have hinv := runAgg_inv (t := t) vs (init_inv ht)
    rw [hinv.2, runAgg_init_length ht vs, decide_eq_true_eq]
  have happend : ∀ (vs : List (Nat × Nat)) (s g : Nat),
      distinctSigners (vs ++ [(s, g)]) = insert s (distinctSigners vs) := by
    intro vs s g
    simp [distinctSigners, Finset.union_comm, Finset.insert_eq]
  refine ⟨hformed, ?_, ?_, ?_, ?_⟩
  · intro vs hcard
    have hiff := hformed vs
    rw [hcard] at hiff
    cases hb : (runAgg t AggState.init vs).formed with
    | false => rfl
    | true => exact ((by omega : ¬ t ≤ t - 1) (hiff.mp hb)).elim
  · intro st s g hl
    cases hls : st.lookupSigner s with
    | none => exact absurd hls hl
    | some v => exact add_known hls
  · intro st s g hfm
    cases hls : st.lookupSigner s with
    | some v => rw [add_known hls]
    | none =>
      rw [(add_new hls).2.2, hfm]
      rfl
  · intro vs s g
    have hinv := runAgg_inv (t := t) vs (init_inv ht)
    have hlen := runAgg_init_length ht vs
    have hkeys := runAgg_init_keys t vs
    rw [happend vs s g]
    cases hls : (runAgg t AggState.init vs).lookupSigner s with
    | some v =>
      rw [add_known hls]
      have hs : s ∈ distinctSigners vs := by
        rw [← hkeys]
        exact List.mem_toFinset.mpr (mem_of_lookupSigner_some hls)
      rw [Finset.insert_eq_self.mpr hs]
      simp
    | none =>
      have hns : s ∉ distinctSigners vs := by
        rw [← hkeys]
        exact fun hmem => (lookupSigner_eq_none _ s).mp hls (List.mem_toFinset.mp hmem)
      rw [(add_new hls).2.2, Finset.card_insert_of_not_mem hns, hinv.2, hlen]
      simp

/-- Witness for C1: with threshold 3, three distinct signers form the
certificate, two distinct signers (despite four votes, two of them
equivocating duplicates) do not, and a duplicate add is a no-op. -/
theorem certificateAggregator_spec_witness :
    (runAgg 3 AggState.init [(1, 9), (2, 9), (3, 9)]).formed = true ∧
    (runAgg 3 AggState.init [(1, 9), (2, 9), (1, 8), (2, 7)]).formed = false ∧
    AggState.add 3 (runAgg 3 AggState.init [(1, 9), (2, 9)]) 1 9 =
      (runAgg 3 AggState.init [(1, 9), (2, 9)], false) :=
  ⟨((certificateAggregator_spec 3 (by decide)).1 _).mpr (by decide),
   (certificateAggregator_spec 3 (by decide)).2.1 _ (by decide),
   (certificateAggregator_spec 3 (by decide)).2.2.1 _ 1 9 (by decide)⟩

/-! ## Compatibility checker lemmas -/

theorem newCompatError_rewindTo (w : CompatWhat) (s1 s2 : Option Int) :
    (((newCompatError w s1 s2).RewindTo : Nat) : Int) =
      max (lowerHeight s1 s2 - 1) 0 := by
  cases s1 with
  | none =>
    cases s2 with
    | none => simp [newCompatError, lowerHeight]
    | some b =>
      simp only [newCompatError, lowerHeight]
      by_cases hb : (0 : Int) < b <;> simp [hb] <;> omega
  | some a =>
    cases s2 with
    | none =>
      simp only [newCompatError, lowerHeight]
      by_cases ha : (0 : Int) < a <;> simp [ha] <;> omega
    | some b =>
      simp only [newCompatError, lowerHeight]
      by_cases hab : a < b
      · by_cases ha : (0 : Int) < a <;> simp [hab, ha] <;> omega
      · by_cases hb : (0 : Int) < b <;> simp [hab, hb] <;> omega

theorem checkCompatible_err_rewindTo {c n : ChainConfig} {hd : Option Int}
    {e : ConfigCompatError} (hcc : c.checkCompatible n hd = some e) :
    ((e.RewindTo : Nat) : Int) =
      max (lowerHeight e.StoredConfig e.NewConfig - 1) 0 := by
  unfold ChainConfig.checkCompatible at hcc
  split_ifs at hcc <;>
    (injection hcc with h2
     subst h2
     exact newCompatError_rewindTo _ _ _)

theorem lowerHeight_le_of_incompatible {s1 s2 : Option Int} {b : Int}
    (h : isForkIncompatible s1 s2 (some b) = true) : lowerHeight s1 s2 ≤ b := by
  unfold isForkIncompatible at h
  rw [Bool.and_eq_true, Bool.or_eq_true] at h
  obtain ⟨hor, hne⟩ := h
  cases s1 <;> cases s2 <;>
    simp [isForked, lowerHeight, configNumEqual] at hor hne ⊢ <;> omega

theorem lowerHeight_le_of_forked_eq {s1 s2 : Option Int} {b : Int}
    (hf : isForked s1 (some b) = true)
    (hinc : ¬ isForkIncompatible s1 s2 (some b) = true) : lowerHeight s1 s2 ≤ b := by
  unfold isForkIncompatible at hinc
  cases s1 <;> cases s2 <;>
    simp [isForked, lowerHeight, configNumEqual] at hf hinc ⊢ <;> omega

theorem checkCompatible_rewind_bound {c n : ChainConfig} {b : Nat}
    {e : ConfigCompatError}
    (hcc : c.checkCompatible n (some ((b : Nat) : Int)) = some e) :
    e.RewindTo ≤ b ∧ (0 < b → e.RewindTo < b) := by
  have hfold := checkCompatible_err_rewindTo hcc
  have hlow : lowerHeight e.StoredConfig e.NewConfig ≤ ((b : Nat) : Int) := by
    unfold ChainConfig.checkCompatible at hcc
    split_ifs at hcc with h1 h2 h3 h4 h5 h6 h7 h8 h9
    · injection hcc with h0
      subst h0
      exact lowerHeight_le_of_incompatible h1
    · injection hcc with h0
      subst h0
      exact lowerHeight_le_of_incompatible h2
    · injection hcc with h0
      subst h0
      have hdao : c.IsDAOFork (some ((b : Nat) : Int)) = true :=
        ((Bool.and_eq_true _ _).mp h3).1
      exact lowerHeight_le_of_forked_eq hdao h2
    · injection hcc with h0
      subst h0
      exact lowerHeight_le_of_incompatible h4
    · injection hcc with h0
      subst h0
      exact lowerHeight_le_of_incompatible h5
    · injection hcc with h0
      subst h0
      exact lowerHeight_le_of_incompatible h6
    · injection hcc with h0
      subst h0
      have h158 : c.IsEIP158 (some ((b : Nat) : Int)) = true :=
        ((Bool.and_eq_true _ _).mp h7).1
      exact lowerHeight_le_of_forked_eq h158 h6
    · injection hcc with h0
      subst h0
      exact lowerHeight_le_of_incompatible h8
    · injection hcc with h0
      subst h0
      exact lowerHeight_le_of_incompatible h9
  constructor
  · omega
  · intro hb
    omega

theorem loop_succ (c n : ChainConfig) (fuel bhead : Nat)
    (le : Option ConfigCompatError) :
    checkCompatibleLoop c n (fuel + 1) bhead le =
      match c.checkCompatible n (some ((bhead : Nat) : Int)) with
      | none => le
      | some err =>
        match le with
        | some l =>
          if err.RewindTo = l.RewindTo then le
          else checkCompatibleLoop c n fuel err.RewindTo (some err)
        | none => checkCompatibleLoop c n fuel err.RewindTo (some err) := rfl

theorem loop_ne_none (c n : ChainConfig) :
    ∀ (fuel bhead : Nat) (l : ConfigCompatError),
      checkCompatibleLoop c n fuel bhead (some l) ≠ none := by
  intro fuel
  induction fuel with
  | zero =>
    intro bhead l
    exact fun h => Option.noConfusion h
  | succ f ih =>
    intro bhead l
    rw [loop_succ]
    cases hcc : c.checkCompatible n (some ((bhead : Nat) : Int)) with
    | none => exact fun h => Option.noConfusion h
    | some err =>
      by_cases heq : err.RewindTo = l.RewindTo
      · simp only [heq, if_pos rfl]
        exact fun h => Option.noConfusion h
      · simp only [if_neg heq]
        exact ih err.RewindTo err

theorem loop_zero_fix (c n : ChainConfig) (err : ConfigCompatError)
    (hcc : c.checkCompatible n (some (((0 : Nat) : Nat) : Int)) = some err)
    (hR : err.RewindTo = 0) :
    ∀ k : Nat, checkCompatibleLoop c n (k + 1) 0 (some err) = some err := by
  intro k
  rw [loop_succ, hcc]
  simp

theorem loop_stable (c n : ChainConfig) :
    ∀ (b f1 f2 : Nat), b + 2 ≤ f1 → b + 2 ≤ f2 →
      ∀ le : Option ConfigCompatError,
        checkCompatibleLoop c n f1 b le = checkCompatibleLoop c n f2 b le := by
  intro b
  induction b using Nat.strong_induction_on with
  | _ b IH =>
    intro f1 f2 h1 h2 le
    obtain ⟨g1, rfl⟩ : ∃ g1, f1 = g1 + 1 := ⟨f1 - 1, by omega⟩
    obtain ⟨g2, rfl⟩ : ∃ g2, f2 = g2 + 1 := ⟨f2 - 1, by omega⟩
    rw [loop_succ, loop_succ]
    cases hcc : c.checkCompatible n (some ((b : Nat) : Int)) with
    | none => rfl
    | some err =>
      obtain ⟨hb1, hb2⟩ := checkCompatible_rewind_bound hcc
      have hrec : ∀ g : Nat, b + 1 ≤ g →
          checkCompatibleLoop c n g err.RewindTo (some err) =
            checkCompatibleLoop c n (err.RewindTo + 2) err.RewindTo (some err) := by
        intro g hg
        by_cases hbpos : 0 < b
        · have hblt : err.RewindTo < b := hb2 hbpos
          exact IH err.RewindTo (by omega) g (err.RewindTo + 2) (by omega)
            (by omega) (some err)
        · have hb0 : b = 0 := by omega
          subst hb0
          have hR : err.RewindTo = 0 := by omega
          obtain ⟨k, rfl⟩ : ∃ k, g = k + 1 := ⟨g - 1, by omega⟩
          rw [hR]
          rw [show (0 : Nat) + 2 = 1 + 1 from rfl]
          rw [loop_zero_fix c n err hcc hR]
          rw [loop_zero_fix c n err hcc hR]
      cases le with
      | none =>
        dsimp only
        rw [hrec g1 (by omega), hrec g2 (by omega)]
      | some l =>
        dsimp only
        by_cases heq : err.RewindTo = l.RewindTo
        · simp [heq]
        · rw [if_neg heq, if_neg heq, hrec g1 (by omega), hrec g2 (by omega)]

theorem loop_err_formula (c n : ChainConfig) :
    ∀ (fuel b : Nat) (le : Option ConfigCompatError),
      (∀ l, le = some l → ((l.RewindTo : Nat) : Int) =
        max (lowerHeight l.StoredConfig l.NewConfig - 1) 0) →
      ∀ e, checkCompatibleLoop c n fuel b le = some e →
        ((e.RewindTo : Nat) : Int) =
          max (lowerHeight e.StoredConfig e.NewConfig - 1) 0 := by
  intro fuel
  induction fuel with
  | zero =>
    intro b le hle e hloop
    exact hle e hloop
  | succ f ih =>
    intro b le hle e hloop
    rw [loop_succ] at hloop
    cases hcc : c.checkCompatible n (some ((b : Nat) : Int)) with
    | none =>
      rw [hcc] at hloop
      exact hle e hloop
    | some err =>
      rw [hcc] at hloop
      have herr := checkCompatible_err_rewindTo hcc
      have hnext : ∀ l, some err = some l → ((l.RewindTo : Nat) : Int) =
          max (lowerHeight l.StoredConfig l.NewConfig - 1) 0 := by
        intro l hl
        injection hl with hl0
        subst hl0
        exact herr
      cases le with
      | none => exact ih err.RewindTo (some err) hnext e hloop
      | some l =>
        dsimp only at hloop
        by_cases heq : err.RewindTo = l.RewindTo
        · rw [if_pos heq] at hloop
          exact hle e hloop
        · rw [if_neg heq] at hloop
          exact ih err.RewindTo (some err) hnext e hloop

theorem loop_result (c n : ChainConfig) :
    ∀ (fuel : Nat) (b : Nat) (l : ConfigCompatError), b = l.RewindTo →
      b + 1 ≤ fuel →
      ∀ e, checkCompatibleLoop c n fuel b (some l) = some e →
        e.RewindTo ≤ l.RewindTo ∧
        (∀ e2, c.checkCompatible n (some ((e.RewindTo : Nat) : Int)) = some e2 →
          e2.RewindTo = e.RewindTo) := by
  intro fuel
  induction fuel with
  | zero =>
    intro b l hb hf
    exact absurd hf (by omega)
  | succ f ih =>
    intro b l hb hf e hloop
    rw [loop_succ] at hloop
    subst hb
    cases hcc : c.checkCompatible n (some ((l.RewindTo : Nat) : Int)) with
    | none =>
      rw [hcc] at hloop
      injection hloop with h0
      subst h0
      refine ⟨le_refl _, ?_⟩
      intro e2 h2
      rw [hcc] at h2
      exact Option.noConfusion h2
    | some err =>
      rw [hcc] at hloop
      dsimp only at hloop
      by_cases heq : err.RewindTo = l.RewindTo
      · rw [if_pos heq] at hloop
        injection hloop with h0
        subst h0
        refine ⟨le_refl _, ?_⟩
        intro e2 h2
        rw [hcc] at h2
        injection h2 with h3
        subst h3
        exact heq
      · rw [if_neg heq] at hloop
        have hbound := checkCompatible_rewind_bound hcc
        have hbpos : 0 < l.RewindTo := by
          rcases Nat.eq_zero_or_pos l.RewindTo with h0 | hp
          · exact absurd (by omega : err.RewindTo = l.RewindTo) heq
          · exact hp
        have hres := ih err.RewindTo err rfl (by omega) e hloop
        exact ⟨le_trans hres.1 (by omega), hres.2⟩

theorem CheckCompatible_unfold (c n : ChainConfig) (h : Nat) :
    c.CheckCompatible n h =
      match c.checkCompatible n (some ((h : Nat) : Int)) with
      | none => none
      | some err => checkCompatibleLoop c n (h + 1) err.RewindTo (some err) := rfl

theorem CheckCompatible_ne_none_iff (c n : ChainConfig) (h : Nat) :
    c.CheckCompatible n h ≠ none ↔
      c.checkCompatible n (some ((h : Nat) : Int)) ≠ none := by
  rw [CheckCompatible_unfold]
  cases hcc : c.checkCompatible n (some ((h : Nat) : Int)) with
  | none => simp
  | some err =>
    dsimp only
    simp [loop_ne_none c n (h + 1) err.RewindTo err]

theorem checkCompatible_some_iff (c n : ChainConfig) (hd : Option Int)
    (hsup : c.DAOForkSupport = n.DAOForkSupport)
    (hid : configNumEqual c.ChainId n.ChainId = true) :
    c.checkCompatible n hd ≠ none ↔
      (isForkIncompatible c.HomesteadBlock n.HomesteadBlock hd = true ∨
       isForkIncompatible c.DAOForkBlock n.DAOForkBlock hd = true ∨
       isForkIncompatible c.EIP150Block n.EIP150Block hd = true ∨
       isForkIncompatible c.EIP155Block n.EIP155Block hd = true ∨
       isForkIncompatible c.EIP158Block n.EIP158Block hd = true ∨
       isForkIncompatible c.ByzantiumBlock n.ByzantiumBlock hd = true ∨
       isForkIncompatible c.ConstantinopleBlock n.ConstantinopleBlock hd = true) := by
  have h3 : (c.IsDAOFork hd && !(c.DAOForkSupport == n.DAOForkSupport)) = false := by
    rw [hsup]
    simp
  have h7 : (c.IsEIP158 hd && !configNumEqual c.ChainId n.ChainId) = false := by
    rw [hid]
    simp
  unfold ChainConfig.checkCompatible
  rw [h3, h7]
  simp only [Bool.false_eq_true, if_false]
  split_ifs with h1 h2 h4 h5 h6 h8 h9 <;> simp_all

/-- C2 (corrected): provided the two configurations agree on
`DAOForkSupport` and on the chain ID, `CheckCompatible(incoming, h)`
returns a non-nil error iff some fork-activation field is checked
incompatible — the configs disagree on that field's activation height
while at least one of the two heights is at or before `h` — and the
returned error's `RewindTo` equals one less than the lower of the two
present conflicting heights, clamped below at zero; in particular, for
EIP150 at 100 vs 200 and h = 150 the rewind target is 99. -/
theorem checkCompatible_spec (c n : ChainConfig) (h : Nat)
    (hsup : c.DAOForkSupport = n.DAOForkSupport)
    (hid : configNumEqual c.ChainId n.ChainId = true) :
    (c.CheckCompatible n h ≠ none ↔
      (isForkIncompatible c.HomesteadBlock n.HomesteadBlock (some ((h : Nat) : Int)) = true ∨
       isForkIncompatible c.DAOForkBlock n.DAOForkBlock (some ((h : Nat) : Int)) = true ∨
       isForkIncompatible c.EIP150Block n.EIP150Block (some ((h : Nat) : Int)) = true ∨
       isForkIncompatible c.EIP155Block n.EIP155Block (some ((h : Nat) : Int)) = true ∨
       isForkIncompatible c.EIP158Block n.EIP158Block (some ((h : Nat) : Int)) = true ∨
       isForkIncompatible c.ByzantiumBlock n.ByzantiumBlock (some ((h : Nat) : Int)) = true ∨
       isForkIncompatible c.ConstantinopleBlock n.ConstantinopleBlock
         (some ((h : Nat) : Int)) = true)) ∧
    (∀ (s1 s2 : Option Int) (hh : Int),
      isForkIncompatible s1 s2 (some hh) = true ↔
        (((∃ a, s1 = some a ∧ a ≤ hh) ∨ (∃ b2, s2 = some b2 ∧ b2 ≤ hh)) ∧ s1 ≠ s2)) ∧
    (∀ e, c.CheckCompatible n h = some e →
      ((e.RewindTo : Nat) : Int) =
        max (lowerHeight e.StoredConfig e.NewConfig - 1) 0) ∧
    cfgEIP150At100.CheckCompatible cfgEIP150At200 150 =
      some { What := CompatWhat.EIP150Fork, StoredConfig := some 100,
             NewConfig := some 200, RewindTo := 99 } := by
  refine ⟨?_, ?_, ?_, by decide⟩
  · rw [CheckCompatible_ne_none_iff]
    exact checkCompatible_some_iff c n _ hsup hid
  · intro s1 s2 hh
    cases s1 <;> cases s2 <;>
      simp [isForkIncompatible, isForked, configNumEqual]
  · intro e he
    exact loop_err_formula c n (h + 2) h none (fun l hl => Option.noConfusion hl) e he

/-- Witness for C2: the §8 scenario — configs that agree on
DAO support and chain ID but differ in EIP150 (100 vs 200) are reported
incompatible at height 150. -/
theorem checkCompatible_spec_witness :
    cfgEIP150At100.CheckCompatible cfgEIP150At200 150 ≠ none :=
  (checkCompatible_spec cfgEIP150At100 cfgEIP150At200 150 rfl rfl).1.mpr (by decide)

/-- Counterexample for C2 as stated: with EIP150 rescheduled from 0 to 5
and height 3, the code returns `RewindTo = 0`, not "one less than the
lower of the two conflicting activation heights" (which would be -1). -/
theorem checkCompatible_cex :
    cfgEIP150At0.CheckCompatible cfgEIP150At5 3 =
      some { What := CompatWhat.EIP150Fork, StoredConfig := some 0,
             NewConfig := some 5, RewindTo := 0 } ∧
    ¬ (((0 : Nat) : Int) = lowerHeight (some 0) (some 5) - 1) :=
  ⟨by decide, by decide⟩

/-- C3 (corrected): the `CheckCompatible` iteration terminates — its
result is unchanged by any extra fuel beyond `h + 2`; every conflict the
single-pass check reports at height `h` has rewind height at most `h`,
strictly below `h` when `h > 0`; the returned conflict's rewind height
never exceeds the first conflict's; and at the returned (converged)
rewind height the single-pass check reports only a conflict with that
same rewind height, if any. -/
theorem checkCompatible_iteration_spec (c n : ChainConfig) (h : Nat) :
    (∀ k : Nat, checkCompatibleLoop c n (h + 2 + k) h none = c.CheckCompatible n h) ∧
    (∀ e, c.checkCompatible n (some ((h : Nat) : Int)) = some e →
      e.RewindTo ≤ h ∧ (0 < h → e.RewindTo < h)) ∧
    (∀ e, c.CheckCompatible n h = some e →
      (∀ e0, c.checkCompatible n (some ((h : Nat) : Int)) = some e0 →
        e.RewindTo ≤ e0.RewindTo) ∧
      (∀ e2, c.checkCompatible n (some ((e.RewindTo : Nat) : Int)) = some e2 →
        e2.RewindTo = e.RewindTo)) := by
  refine ⟨?_, ?_, ?_⟩
  · intro k
    exact loop_stable c n h (h + 2 + k) (h + 2) (by omega) (by omega) none
  · intro e he
    exact checkCompatible_rewind_bound he
  · intro e he
    rw [CheckCompatible_unfold] at he
    cases hcc : c.checkCompatible n (some ((h : Nat) : Int)) with
    | none =>
      rw [hcc] at he
      exact Option.noConfusion he
    | some e0 =>
      rw [hcc] at he
      dsimp only at he
      obtain ⟨hb1, -⟩ := checkCompatible_rewind_bound hcc
      have hres := loop_result c n (h + 1) e0.RewindTo e0 rfl (by omega) e he
      constructor
      · intro e1 h1
        injection h1 with h1e
        subst h1e
        exact hres.1
      · exact hres.2

/-- Witness for C3: for the §8 scenario the single-pass conflict at
height 150 has rewind height 99, which is at most — indeed strictly
below — 150. -/
theorem checkCompatible_iteration_spec_witness :
    ({ What := CompatWhat.EIP150Fork, StoredConfig := some 100, NewConfig := some 200,
       RewindTo := 99 } : ConfigCompatError).RewindTo ≤ 150 ∧
    (0 < 150 →
      ({ What := CompatWhat.EIP150Fork, StoredConfig := some 100, NewConfig := some 200,
         RewindTo := 99 } : ConfigCompatError).RewindTo < 150) :=
  (checkCompatible_iteration_spec cfgEIP150At100 cfgEIP150At200 150).2.1
    { What := CompatWhat.EIP150Fork, StoredConfig := some 100, NewConfig := some 200,
      RewindTo := 99 } (by decide)

/-- Counterexample for C3 as stated: the check on the §8 scenario
converges with rewind target 99, but re-running the check at that
converged height returns nil — not the same (non-nil) result. -/
theorem checkCompatible_iteration_cex :
    cfgEIP150At100.CheckCompatible cfgEIP150At200 150 =
      some { What := CompatWhat.EIP150Fork, StoredConfig := some 100,
             NewConfig := some 200, RewindTo := 99 } ∧
    cfgEIP150At100.CheckCompatible cfgEIP150At200 99 = none :=
  ⟨by decide, by decide⟩

end XDC
